import Mathlib

/-!
Shallow embedding of `src/game_sim.py` (repository sidrdesai/game_sim).

The Python module defines three classes:
  * `Game` — mutable holder of `game_over`, `players`, `_scores`,
    `_current_player_id` and dynamically `setattr`-injected attributes
    (options are stored under the prefix `_opt_`, saved state overwrites
    attributes wholesale);
  * `ActionList` — a stored list of action strings with uniform random
    sampling (`get_random_action`) and membership validation (`isValid`);
  * `Player` / `CLI_Player` — action-selection policies: the base player
    samples randomly, the CLI player reads lines until a valid one appears.

Modelling conventions:
  * a Python attribute value is a `Value`; attribute dictionaries are
    association lists `List (String × Value)` (later bindings shadow);
  * a Python exception (IndexError, AttributeError, TypeError, EOFError)
    is `none` of an `Option`; `NotImplementedError` is an explicit
    `PyError` so its kind is visible;
  * the random source consumed by `random.choice` is an explicit `Nat`
    giving the drawn index modulo the sequence length;
  * the interactive player's standard input is a `List String` of lines
    (`none` when `input()` hits end of stream); each `self.out(...)` call
    passes an `OutEvent` — the `ActionList` object or a plain string — to
    the default sink `sys.stdout.write`, which accepts only text and
    raises `TypeError` on the `ActionList` object.
-/

/-- A player policy value: the base `Player` (random) or `CLI_Player`.
The CLI player reads from the process-wide standard input, which is
passed to `get_action` separately, exactly as Python's global `input()`. -/
inductive PlayerV where
  | random : PlayerV
  | cli : PlayerV
deriving DecidableEq

/-- A Python attribute value, covering the types the module manipulates. -/
inductive Value where
  | bool (b : Bool)
  | int (n : Int)
  | str (s : String)
  | playersV (ps : List PlayerV)
  | intList (xs : List Int)
deriving DecidableEq

/-- Python truthiness of a `Value`, as used by `if self.game_over:`. -/
def Value.truthy : Value → Bool
  | .bool b => b
  | .int n => n != 0
  | .str s => !s.isEmpty
  | .playersV ps => !ps.isEmpty
  | .intList xs => !xs.isEmpty

/-- Python list indexing `l[i]`: non-negative indices from the front,
negative indices wrap from the back, anything else raises IndexError. -/
def pyIndex {α : Type} (l : List α) (i : Int) : Option α :=
  if 0 ≤ i then l.get? i.toNat
  else if 0 ≤ (l.length : Int) + i then l.get? ((l.length : Int) + i).toNat
  else none

/-- Exception kinds the module can raise explicitly. -/
inductive PyError where
  | notImplementedError (msg : String)
deriving DecidableEq

/-- One call of `self.out(...)` in `CLI_Player.get_action`: the code
passes either the `ActionList` object itself or a plain string. -/
inductive OutEvent where
  | actions (acts : List String)
  | text (s : String)
deriving DecidableEq

/-- `ActionList.__init__`: stores the list of action strings verbatim. -/
structure ActionList where
  _actions : List String
deriving DecidableEq

/-- `ActionList.__str__`: the default human-readable form is empty. -/
def ActionList.toStr (_ : ActionList) : String := ""

/-- `ActionList.get_random_action`: `random.choice(self._actions)` with
the random draw `r` made explicit; the chosen index is `r` modulo the
length, and the empty sequence raises (returns `none`). -/
def ActionList.get_random_action (a : ActionList) (r : Nat) : Option String :=
  a._actions.get? (r % a._actions.length)

/-- `ActionList.isValid`: `input_str in self._actions`. -/
def ActionList.isValid (a : ActionList) (input_str : String) : Bool :=
  a._actions.contains input_str

/-- `ostream.write` of `CLI_Player`'s default (and only in-repo) sink
`sys.stdout`: writing a string succeeds and returns the written text;
any non-`str` argument — in particular the `ActionList` object that
`get_action` passes as `self.out(possible)` — raises `TypeError`
(`none`). -/
def stdoutWrite : OutEvent → Option String
  | OutEvent.text s => some s
  | OutEvent.actions _ => none

/-- The `while not possible.isValid(inp):` loop of `CLI_Player.get_action`
with the default sink: `inp` is the line just read, `rest` the remaining
stdin lines, `acc` the text successfully written so far.  Each `self.out`
call is a `stdoutWrite`; its `TypeError` aborts the call, and `none` also
models `input()` hitting end of stream (EOFError). -/
def cliLoop (a : ActionList) : String → List String → List String →
    Option (String × List String)
  | inp, rest, acc =>
    if a.isValid inp then some (inp, acc)
    else do
      let o1 ← stdoutWrite (OutEvent.text "Not a valid action!")
      let o2 ← stdoutWrite (OutEvent.actions a._actions)
      let o3 ← stdoutWrite (OutEvent.text "Select an action: ")
      match rest with
      | [] => none
      | i :: r => cliLoop a i r (acc ++ [o1, o2, o3])

/-- `CLI_Player.get_action` with the class's default output sink: the
first statement `self.out(possible)` hands the `ActionList` object to
`sys.stdout.write`, so the call raises `TypeError` (`none`) before the
prompt is shown or any line is read; only if every write succeeded would
it read lines and re-prompt until a valid one (`cliLoop`). -/
def CLI_Player.get_action (a : ActionList) (stdin : List String) :
    Option (String × List String) := do
  let o1 ← stdoutWrite (OutEvent.actions a._actions)
  let o2 ← stdoutWrite (OutEvent.text "Select an action: ")
  match stdin with
  | [] => none
  | i :: r => cliLoop a i r [o1, o2]

/-- `Player.get_action` dispatched on the player variant: the base player
returns `possible.get_random_action()`; the CLI player runs its input
loop on `stdin` (its output trace is not part of the returned action). -/
def PlayerV.get_action : PlayerV → Nat → List String → ActionList → Option String
  | .random, r, _, a => a.get_random_action r
  | .cli, _, stdin, a => (CLI_Player.get_action a stdin).map Prod.fst

/-- The attribute state of a `Game` object.  The four attribute names the
module itself reads are modelled as fields (`none` = attribute never set,
i.e. reading it raises AttributeError); every other attribute, in
particular the `_opt_`-prefixed options, lives in `extra` where the most
recent binding shadows older ones. -/
structure Game where
  game_over : Value
  players : Option Value
  _scores : Option Value
  _current_player_id : Option Value
  extra : List (String × Value)
deriving DecidableEq

/-- `setattr(self, n, v)` for a `Game` object. -/
def Game.setattr (g : Game) (n : String) (v : Value) : Game :=
  if n = "game_over" then { g with game_over := v }
  else if n = "players" then { g with players := some v }
  else if n = "_scores" then { g with _scores := some v }
  else if n = "_current_player_id" then { g with _current_player_id := some v }
  else { g with extra := (n, v) :: g.extra }

/-- `getattr(self, n)` for a `Game` object (`none` = AttributeError). -/
def Game.getattr (g : Game) (n : String) : Option Value :=
  if n = "game_over" then some g.game_over
  else if n = "players" then g.players
  else if n = "_scores" then g._scores
  else if n = "_current_player_id" then g._current_player_id
  else (g.extra.find? (fun p => p.1 == n)).map Prod.snd

/-- `Game.update_options`: each option is stored as `_opt_` + name. -/
def Game.update_options (g : Game) (options : List (String × Value)) : Game :=
  options.foldl (fun g p => g.setattr ("_opt_" ++ p.1) p.2) g

/-- `Game._load_state`: every entry of the mapping is `setattr`-ed. -/
def Game.load_state (g : Game) (state : List (String × Value)) : Game :=
  state.foldl (fun g p => g.setattr p.1 p.2) g

/-- `Game.reset_game`: one default random player, score 0, player 0
to move, game not over. -/
def Game.reset_game (g : Game) : Game :=
  { g with players := some (Value.playersV [PlayerV.random]),
           _scores := some (Value.intList [0]),
           _current_player_id := some (Value.int 0),
           game_over := Value.bool false }

/-- `Game.__init__(state, options)`: sets `game_over = False`, applies
the options when the mapping is non-empty (Python truthiness of a dict),
then either loads the state mapping or calls `reset_game`.  `[]` models
both `None` and the empty dict, which Python treats identically here. -/
def Game.init (state : List (String × Value)) (options : List (String × Value)) : Game :=
  let g0 : Game :=
    { game_over := Value.bool false, players := none, _scores := none,
      _current_player_id := none, extra := [] }
  let g1 := if options.isEmpty then g0 else g0.update_options options
  if state.isEmpty then g1.reset_game else g1.load_state state

/-- `self.players[self._current_player_id]`: `none` when the attributes
are missing, not of indexable/integer type, or the index is out of range. -/
def Game.currentPlayer (g : Game) : Option PlayerV :=
  match g.players, g._current_player_id with
  | some (Value.playersV ps), some (Value.int i) => pyIndex ps i
  | _, _ => none

/-- `Game.step`: return immediately when `game_over` is truthy; otherwise
build `ActionList(["0", "1"])`, ask the current player for an action, and
set `game_over = True` exactly when the action is `"1"`.  `r` is the
random draw a random player would consume, `stdin` the lines a CLI player
would read; `none` models a raised exception. -/
def Game.step (g : Game) (r : Nat) (stdin : List String) : Option Game :=
  if g.game_over.truthy then some g
  else
    match g.currentPlayer with
    | none => none
    | some p =>
        match p.get_action r stdin (ActionList.mk ["0", "1"]) with
        | none => none
        | some act =>
            some (if act = "1" then { g with game_over := Value.bool true } else g)

/-- The message of the `NotImplementedError` in `Game.get_full_state`
(the Python source continues the string over a backslash-newline, keeping
the next line's indentation inside the literal). -/
def fullStateMsg : String :=
  "Text representation of full state not            implemented for this game."

/-- `Game.get_full_state`: unconditionally raises `NotImplementedError`;
it reads and writes no attribute of the game. -/
def Game.get_full_state (_ : Game) : Except PyError String :=
  Except.error (PyError.notImplementedError fullStateMsg)

/-- `Game.get_player_state`: `{'score': self._scores[player_id]}`. -/
def Game.get_player_state (g : Game) (player_id : Int) : Option (List (String × Value)) :=
  match g._scores with
  | some (Value.intList xs) => (pyIndex xs player_id).map (fun s => [("score", Value.int s)])
  | _ => none

/-- `Game.get_player_reward`: `return self._scores[player_id]`. -/
def Game.get_player_reward (g : Game) (player_id : Int) : Option Value :=
  match g._scores with
  | some (Value.intList xs) => (pyIndex xs player_id).map Value.int
  | _ => none

/-- The value a Python dict literal, read as an ordered association list,
finally assigns to key `n` (later entries overwrite earlier ones). -/
def lastVal : List (String × Value) → String → Option Value
  | [], _ => none
  | (m, w) :: rest, n =>
      match lastVal rest n with
      | some v => some v
      | none => if m = n then some w else none

/-- The states a `Game` object can be in along a run that never loads a
saved-state mapping: constructed fresh (with any options), explicitly
reset, or advanced by `step` calls that raised no exception. -/
inductive Reachable : Game → Prop where
  | init (options : List (String × Value)) : Reachable (Game.init [] options)
  | reset (g : Game) : Reachable g → Reachable g.reset_game
  | step (g g' : Game) (r : Nat) (stdin : List String) :
      Reachable g → g.step r stdin = some g' → Reachable g'

/-- The invariant of C4: the `players` attribute holds a player list, the
`_current_player_id` attribute holds an integer, and that integer is a
valid non-negative index into the list. -/
def currentPlayerOk (g : Game) : Prop :=
  ∃ (ps : List PlayerV) (i : Nat),
    g.players = some (Value.playersV ps) ∧
    g._current_player_id = some (Value.int (i : Int)) ∧ i < ps.length

/-- The conclusion of C6 for a non-empty action list: the random draw
succeeds and yields a member of the stored sequence. -/
def samplesMember (a : ActionList) (r : Nat) : Prop :=
  ∃ x, a.get_random_action r = some x ∧ x ∈ a._actions

/-! ### Helper lemmas -/

theorem step_frame (g g' : Game) (r : Nat) (stdin : List String)
    (h : g.step r stdin = some g') :
    g'.players = g.players ∧ g'._scores = g._scores ∧
      g'._current_player_id = g._current_player_id ∧ g'.extra = g.extra := by
  unfold Game.step at h
  split at h
  · cases h
    exact ⟨rfl, rfl, rfl, rfl⟩
  · split at h
    · cases h
    · split at h
      · cases h
      · cases h
        split
        · exact ⟨rfl, rfl, rfl, rfl⟩
        · exact ⟨rfl, rfl, rfl, rfl⟩

theorem step_game_over_mono (g g' : Game) (r : Nat) (stdin : List String)
    (h : g.step r stdin = some g') (hgo : g.game_over.truthy = true) :
    g'.game_over.truthy = true := by
  unfold Game.step at h
  rw [if_pos hgo] at h
  cases h
  exact hgo

theorem getattr_setattr_same (g : Game) (n : String) (v : Value) :
    (g.setattr n v).getattr n = some v := by
  unfold Game.setattr Game.getattr
  by_cases h1 : n = "game_over"
  · simp [h1]
  · by_cases h2 : n = "players"
    · simp [h1, h2]
    · by_cases h3 : n = "_scores"
      · simp [h1, h2, h3]
      · by_cases h4 : n = "_current_player_id"
        · simp [h1, h2, h3, h4]
        · simp [h1, h2, h3, h4, List.find?]

theorem getattr_setattr_ne (g : Game) (n m : String) (v : Value) (h : m ≠ n) :
    (g.setattr n v).getattr m = g.getattr m := by
  unfold Game.setattr Game.getattr
  have hnm : (n == m) = false := by
    simp only [beq_eq_false_iff_ne]
    exact fun he => h he.symm
  by_cases h1 : n = "game_over" <;> by_cases h2 : n = "players" <;>
    by_cases h3 : n = "_scores" <;> by_cases h4 : n = "_current_player_id" <;>
    by_cases k1 : m = "game_over" <;> by_cases k2 : m = "players" <;>
    by_cases k3 : m = "_scores" <;> by_cases k4 : m = "_current_player_id" <;>
    simp_all [List.find?]

theorem load_state_getattr_none (st : List (String × Value)) :
    ∀ (g : Game) (n : String), lastVal st n = none →
      (g.load_state st).getattr n = g.getattr n := by
  induction st with
  | nil => intro g n _; rfl
  | cons p rest ih =>
      intro g n hlast
      obtain ⟨m, w⟩ := p
      unfold lastVal at hlast
      rcases hrest : lastVal rest n with _ | v
      · rw [hrest] at hlast
        simp only at hlast
        have hmn : m ≠ n := by
          intro he
          rw [if_pos he] at hlast
          cases hlast
        have : (g.load_state ((m, w) :: rest)) = ((g.setattr m w).load_state rest) := rfl
        rw [this, ih (g.setattr m w) n hrest, getattr_setattr_ne g m n w (Ne.symm hmn)]
      · rw [hrest] at hlast
        cases hlast

theorem load_state_getattr_last (st : List (String × Value)) :
    ∀ (g : Game) (n : String) (v : Value), lastVal st n = some v →
      (g.load_state st).getattr n = some v := by
  induction st with
  | nil => intro g n v hlast; cases hlast
  | cons p rest ih =>
      intro g n v hlast
      obtain ⟨m, w⟩ := p
      unfold lastVal at hlast
      rcases hrest : lastVal rest n with _ | v'
      · rw [hrest] at hlast
        simp only at hlast
        by_cases hmn : m = n
        · rw [if_pos hmn] at hlast
          have hload : (g.load_state ((m, w) :: rest)) = ((g.setattr m w).load_state rest) := rfl
          rw [hload, load_state_getattr_none rest (g.setattr m w) n hrest, ← hmn,
            getattr_setattr_same]
          exact hlast
        · rw [if_neg hmn] at hlast
          cases hlast
      · rw [hrest] at hlast
        injection hlast with hv
        rw [← hv]
        exact ih (g.setattr m w) n v' hrest

theorem reachable_inv (g : Game) (h : Reachable g) :
    ∃ (ps : List PlayerV) (i : Nat),
      g.players = some (Value.playersV ps) ∧
      g._current_player_id = some (Value.int (i : Int)) ∧ i < ps.length := by
  induction h with
  | init options =>
      refine ⟨[PlayerV.random], 0, ?_, ?_, ?_⟩ <;>
        simp [Game.init, Game.reset_game]
  | reset g _ _ =>
      exact ⟨[PlayerV.random], 0, rfl, rfl, by simp⟩
  | step g g' r stdin _ hstep ih =>
      obtain ⟨ps, i, hp, hc, hlen⟩ := ih
      obtain ⟨hp', _, hc', _⟩ := step_frame g g' r stdin hstep
      exact ⟨ps, i, hp' ▸ hp, hc' ▸ hc, hlen⟩

theorem get_player_reward_eq (g : Game) (xs : List Int) (pid : Int)
    (hs : g._scores = some (Value.intList xs)) :
    g.get_player_reward pid = (pyIndex xs pid).map Value.int := by
  unfold Game.get_player_reward
  rw [hs]

/-! ### Claim theorems -/

/-- C1: when `game_over` is false, `step()` builds the action list
`["0", "1"]`, asks the current player for an action from it (first
conjunct: `step` is exactly that pipeline), and afterwards `game_over`
is true iff the returned action is the sentinel `"1"`; any other action
leaves the game unchanged (second conjunct, the `else g` branch). -/
theorem claim_C1 (g : Game) (r : Nat) (stdin : List String)
    (hgo : g.game_over.truthy = false) :
    g.step r stdin =
      (g.currentPlayer.bind
        (fun p => p.get_action r stdin (ActionList.mk ["0", "1"]))).map
        (fun act => if act = "1" then { g with game_over := Value.bool true } else g) ∧
    (∀ (p : PlayerV) (act : String), g.currentPlayer = some p →
        p.get_action r stdin (ActionList.mk ["0", "1"]) = some act →
        g.step r stdin =
          some (if act = "1" then { g with game_over := Value.bool true } else g) ∧
        ((if act = "1" then { g with game_over := Value.bool true }
            else g).game_over.truthy = true ↔ act = "1")) := by
  constructor
  · unfold Game.step
    rw [if_neg (by simp [hgo])]
    rcases hcp : g.currentPlayer with _ | p
    · rfl
    · rcases hact : p.get_action r stdin (ActionList.mk ["0", "1"]) with _ | act
      · simp [hact]
      · simp [hact]
  · intro p act hp ha
    constructor
    · unfold Game.step
      rw [if_neg (by simp [hgo])]
      simp [hp, ha]
    · by_cases h1 : act = "1"
      · simp [h1, Value.truthy]
      · simp [h1, hgo]

/-- Witness for C1: the freshly reset game with its single random player,
random draw 1, so the player answers the sentinel `"1"`. -/
theorem claim_C1_witness :
    (Game.init [] []).step 1 [] =
      some (if ("1" : String) = "1"
        then { Game.init [] [] with game_over := Value.bool true }
        else Game.init [] []) ∧
    ((if ("1" : String) = "1"
        then { Game.init [] [] with game_over := Value.bool true }
        else Game.init [] []).game_over.truthy = true ↔ ("1" : String) = "1") :=
  (claim_C1 (Game.init [] []) 1 [] (by decide)).2 PlayerV.random "1" (by decide) (by decide)

/-- C2: when `game_over` is true, `step()` returns the game unchanged —
literally the same state, so every attribute (including `game_over`,
which stays true) is preserved and the call is idempotent. -/
theorem claim_C2 (g : Game) (r : Nat) (stdin : List String)
    (h : g.game_over = Value.bool true) :
    g.step r stdin = some g := by
  unfold Game.step
  rw [if_pos (by simp [h, Value.truthy])]

/-- Witness for C2: a game constructed from the saved state
`{"game_over": True}` is returned unchanged by `step`. -/
theorem claim_C2_witness :
    (Game.init [("game_over", Value.bool true)] []).step 0 [] =
      some (Game.init [("game_over", Value.bool true)] []) :=
  claim_C2 (Game.init [("game_over", Value.bool true)] []) 0 [] (by decide)

/-- C3 records a code bug: the claim (and the method's own docstring)
promise that `get_action` displays the action list, re-prompts on each
invalid line, and returns the first valid line, but the first statement
`self.out(possible)` hands the `ActionList` object to the default sink
`sys.stdout.write`, which accepts only `str`, so with the class's default
construction every call raises `TypeError` before displaying, reading, or
returning anything — even on the one-line stream `["1"]` whose first line
is already a valid action. -/
theorem claim_C3 :
    CLI_Player.get_action (ActionList.mk ["0", "1"]) ["1"] = none ∧
    (∀ (a : ActionList) (stdin : List String),
        CLI_Player.get_action a stdin = none) :=
  ⟨rfl, fun _ _ => rfl⟩

/-- C4: `game_over` is monotone under `step` (a truthy `game_over` stays
truthy; only `reset_game` and state loading, excluded here, reset it),
and on every reachable state — fresh construction, resets, and exception
free `step`s, with no state loading — the current player id is a valid
index into the player list. -/
theorem claim_C4 :
    (∀ (g g' : Game) (r : Nat) (stdin : List String),
        g.step r stdin = some g' → g.game_over.truthy = true →
        g'.game_over.truthy = true) ∧
    (∀ g : Game, Reachable g → currentPlayerOk g) :=
  ⟨fun g g' r stdin h hgo => step_game_over_mono g g' r stdin h hgo,
   fun g h => reachable_inv g h⟩

/-- Witness for C4: a terminal loaded game stays terminal through `step`,
and the freshly constructed game satisfies the index invariant. -/
theorem claim_C4_witness :
    (Game.init [("game_over", Value.bool true)] []).game_over.truthy = true ∧
    currentPlayerOk (Game.init [] []) :=
  ⟨claim_C4.1 (Game.init [("game_over", Value.bool true)] [])
      (Game.init [("game_over", Value.bool true)] []) 3 ["x"] (by decide) (by decide),
   claim_C4.2 (Game.init [] []) (Reachable.init [])⟩

/-- C5: constructing from a non-empty state mapping `setattr`s each entry
(the last value written to a name is what the attribute holds afterwards)
and never calls `reset_game` — witnessed by `players` staying unset — and
a game constructed with `{"game_over": True}` already no-ops on `step`. -/
theorem claim_C5 :
    (∀ (state options : List (String × Value)) (n : String) (v : Value),
        state ≠ [] → lastVal state n = some v →
        (Game.init state options).getattr n = some v) ∧
    (∀ (r : Nat) (stdin : List String),
        (Game.init [("game_over", Value.bool true)] []).step r stdin =
          some (Game.init [("game_over", Value.bool true)] [])) ∧
    (Game.init [("game_over", Value.bool true)] []).players = none := by
  refine ⟨?_, ?_, rfl⟩
  · intro state options n v hne hlast
    cases state with
    | nil => exact absurd rfl hne
    | cons p st => exact load_state_getattr_last (p :: st) _ n v hlast
  · intro r stdin
    unfold Game.step
    rw [if_pos (by decide)]

/-- Witness for C5: the state mapping sets `game_over` and a fresh
attribute `foo`; the attribute reads back as the mapping's value. -/
theorem claim_C5_witness :
    (Game.init [("game_over", Value.bool true), ("foo", Value.int 5)]
        [("b", Value.int 7)]).getattr "foo" = some (Value.int 5) :=
  claim_C5.1 [("game_over", Value.bool true), ("foo", Value.int 5)]
    [("b", Value.int 7)] "foo" (Value.int 5) (by decide) (by decide)

/-- C6: `get_random_action` on an empty stored sequence fails (none);
on a non-empty sequence it returns a member of the sequence, whatever
the random draw. -/
theorem claim_C6 (a : ActionList) (r : Nat) :
    (a._actions = [] → a.get_random_action r = none) ∧
    (a._actions ≠ [] → samplesMember a r) := by
  constructor
  · intro h
    simp [ActionList.get_random_action, h]
  · intro h
    have hlen : 0 < a._actions.length := List.length_pos.mpr h
    have hmod : r % a._actions.length < a._actions.length := Nat.mod_lt _ hlen
    exact ⟨a._actions.get ⟨r % a._actions.length, hmod⟩,
      by simp only [ActionList.get_random_action]; exact List.get?_eq_get hmod,
      List.get_mem _ _ _⟩

/-- Witness for C6: the two-action list with random draw 3. -/
theorem claim_C6_witness :
    samplesMember (ActionList.mk ["0", "1"]) 3 :=
  (claim_C6 (ActionList.mk ["0", "1"]) 3).2 (by decide)

/-- C7: `isValid x` is true exactly when `x` is an element of the stored
sequence — plain string equality, no normalization. -/
theorem claim_C7 (a : ActionList) (x : String) :
    a.isValid x = true ↔ x ∈ a._actions := by
  simp [ActionList.isValid]

/-- Counterexample for C8 as stated: on the freshly reset game (scores
`[0]`) the negative identifier `-1` does not fail — Python indexing wraps
around and returns the last score, `0`. -/
theorem claim_C8_counterexample :
    (Game.init [] []).get_player_reward (-1) = some (Value.int 0) := by decide

/-- C8 (amended): with `_scores` holding the list `xs`,
`get_player_reward` fails exactly for identifiers outside
`[-len(xs), len(xs))`; every valid non-negative identifier `k` returns
`xs[k]`, and a negative identifier in range wraps to `xs[len + id]`. -/
theorem claim_C8 (g : Game) (xs : List Int) (pid : Int)
    (hs : g._scores = some (Value.intList xs)) :
    (((xs.length : Int) ≤ pid ∨ pid < -(xs.length : Int)) →
        g.get_player_reward pid = none) ∧
    (∀ (k : Nat) (hk : k < xs.length), pid = (k : Int) →
        g.get_player_reward pid = some (Value.int (xs.get ⟨k, hk⟩))) ∧
    (pid < 0 → -(xs.length : Int) ≤ pid →
        g.get_player_reward pid =
          (xs.get? ((xs.length : Int) + pid).toNat).map Value.int) := by
  refine ⟨?_, ?_, ?_⟩
  · intro hout
    rw [get_player_reward_eq g xs pid hs]
    have hnone : pyIndex xs pid = none := by
      unfold pyIndex
      rcases hout with h | h
      · rw [if_pos (by omega)]
        exact List.get?_eq_none.mpr (by omega)
      · rw [if_neg (by omega), if_neg (by omega)]
    rw [hnone]
    rfl
  · intro k hk hpid
    rw [get_player_reward_eq g xs pid hs, hpid]
    simp [pyIndex, List.get?_eq_get hk]
  · intro hneg hge
    rw [get_player_reward_eq g xs pid hs]
    unfold pyIndex
    rw [if_neg (by omega), if_pos (by omega)]

/-- Witness for C8 (amended): identifier 1 on one score is out of range
and fails. -/
theorem claim_C8_witness :
    (Game.init [] []).get_player_reward 1 = none :=
  (claim_C8 (Game.init [] []) [0] 1 (by decide)).1 (Or.inl (by decide))

/-- C9: `get_full_state` on the base game always raises the
`NotImplementedError` with the source's message and never returns a
value; being a pure read, it leaves the game state untouched. -/
theorem claim_C9 (g : Game) :
    g.get_full_state = Except.error (PyError.notImplementedError fullStateMsg) := rfl

/-- C10: a non-terminal `step` that returns normally changes at most
`game_over`: `players`, `_scores`, `_current_player_id` and all other
attributes are exactly preserved, whatever action the player chose. -/
theorem claim_C10 (g g' : Game) (r : Nat) (stdin : List String)
    (_hgo : g.game_over.truthy = false) (h : g.step r stdin = some g') :
    g'.players = g.players ∧ g'._scores = g._scores ∧
      g'._current_player_id = g._current_player_id ∧ g'.extra = g.extra :=
  step_frame g g' r stdin h

/-- Witness for C10: the fresh game stepped with random draw 0 (action
"0", game continues) keeps all non-`game_over` attributes. -/
theorem claim_C10_witness :
    (Game.init [] []).players = (Game.init [] []).players ∧
    (Game.init [] [])._scores = (Game.init [] [])._scores ∧
    (Game.init [] [])._current_player_id = (Game.init [] [])._current_player_id ∧
    (Game.init [] []).extra = (Game.init [] []).extra :=
  claim_C10 (Game.init [] []) (Game.init [] []) 0 [] (by decide) (by decide)
